import Mathlib

/-!
Verification development for the geofence-based location/area-detection
subsystem of the shopper backend (src/location_service.py).

Modelling conventions:

* GPS coordinates, radii and distances are embedded as exact rationals (ℚ);
  the Python code computes with IEEE floats, whose rounding is irrelevant to
  the branch structure, thresholds and ordering facts verified here.
* The haversine great-circle distance uses transcendental functions, so the
  detection algorithms are embedded parametrically over the distance
  function (a parameter of type DistFn standing for
  calculate_distance_meters).  Every theorem about the detection logic is
  proved for an arbitrary distance oracle, which covers the concrete float
  haversine.  The haversine itself is modelled separately over ℝ
  (calculate_distance_meters below) for the algebraic claims about it.
* Firestore reads/writes, async plumbing and the human-readable status
  message of update_user_location are persistence/presentation effects with
  no bearing on the verified claims; the pure payload computation is
  embedded and the write is dropped.
-/

/-- Radius and center of one circular geofence (values from AREA_BOUNDARIES
in src/location_service.py). -/
structure Boundary where
  center_lat : ℚ
  center_lon : ℚ
  radius_m : ℚ
deriving DecidableEq

/-- Type of the distance oracle standing for calculate_distance_meters:
arguments lat1 lon1 lat2 lon2, result in meters. -/
def DistFn : Type := ℚ → ℚ → ℚ → ℚ → ℚ

/-- Registry of geofences, in Python dict insertion order
(src/location_service.py lines 15-36). -/
def AREA_BOUNDARIES : List (String × Boundary) :=
  [("SBIT", ⟨28.9890834, 77.1506293, 407.93⟩),
   ("Pallri", ⟨28.9709633, 77.1531023, 1700⟩),
   ("Bahalgarh", ⟨28.9470954, 77.0835646, 3200⟩),
   ("Sonepat", ⟨28.9845887, 77.0373188, 3500⟩),
   ("TDI", ⟨28.9098117, 77.1307161, 2300⟩)]

/-- Buffer zone in meters (src/location_service.py line 39). -/
def BUFFER_ZONE_METERS : ℚ := 50

/-- Names of the registered areas, in registry order. -/
def AREA_NAMES : List String := AREA_BOUNDARIES.map Prod.fst

/-- Distance from the query point to the center of boundary b, as computed
by the distance oracle d. -/
def areaDist (d : DistFn) (lat lon : ℚ) (b : Boundary) : ℚ :=
  d lat lon b.center_lat b.center_lon

/-- Embedding of quick_distance_check (src/location_service.py lines
54-81).  Returns some true for definitely within, some false for definitely
outside, none for uncertain. -/
def quick_distance_check (lat1 lon1 lat2 lon2 max_distance_m : ℚ) :
    Option Bool :=
  let max_degrees := max_distance_m / 111000
  let lat_diff := |lat1 - lat2|
  let lon_diff := |lon1 - lon2|
  if lat_diff > max_degrees ∨ lon_diff > max_degrees then some false
  else if lat_diff < 0.009 ∧ lon_diff < 0.009 then some true
  else none

/-- Total stand-in for Python dict indexing into an association list; every
use below is at a key that is present. -/
def lookupD (l : List (String × ℚ)) (k : String) : ℚ :=
  (l.lookup k).getD 0

/-- Radius of the named area, as read from AREA_BOUNDARIES by
detect_area_from_coordinates; every use below is at a registered name. -/
def radiusOf (n : String) : ℚ :=
  ((AREA_BOUNDARIES.lookup n).map Boundary.radius_m).getD 0

/-- First pass of detect_area_from_coordinates (lines 170-175): distance
from the query point to every area center, in registry order. -/
def distances_calculated (d : DistFn) (lat lon : ℚ) : List (String × ℚ) :=
  AREA_BOUNDARIES.map (fun p => (p.1, areaDist d lat lon p.2))

/-- First pass of detect_area_from_coordinates (lines 170-175): names of
the areas whose strict radius contains the point. -/
def matching_areas (d : DistFn) (lat lon : ℚ) : List String :=
  (AREA_BOUNDARIES.filter
    (fun p => areaDist d lat lon p.2 ≤ p.2.radius_m)).map Prod.fst

/-- Left fold keeping the first element with strictly smallest key; mirrors
the update rule of Python min (and of the explicit distance < min_distance
loops), which keeps the earliest minimum. -/
def minFold (key : α → ℚ) (x : α) : List α → α
  | [] => x
  | y :: ys => minFold key (if key y < key x then y else x) ys

/-- Embedding of Python min(l, key) over a possibly empty list. -/
def minByKey (key : α → ℚ) : List α → Option α
  | [] => none
  | x :: xs => some (minFold key x xs)

/-- Rounding to two decimal places, modelling Python round(x, 2) on the
display-only fields (its half-to-even tie rule is immaterial here). -/
def round2 (x : ℚ) : ℚ := (round (x * 100) : ℤ) / 100

/-- Entry of the nearby_areas list (src/location_service.py lines
205-215). -/
structure NearbyInfo where
  area : String
  distance_meters : ℚ
  distance_from_edge : ℚ
deriving DecidableEq

/-- Result shape of detect_area_from_coordinates (src/location_service.py
lines 220-226). -/
structure DetectionResult where
  primary_area : Option String
  all_matching_areas : List String
  nearby_areas : List NearbyInfo
  is_on_edge : Bool
  distances : List (String × ℚ)
deriving DecidableEq

/-- Branch logic of detect_area_from_coordinates lines 177-202, returning
(primary_area, all_matching_areas, is_on_edge).  The registry is never
empty, so the inner none case is unreachable. -/
def detectCore (distances : List (String × ℚ)) (matching : List String)
    (max_unrecognized_distance_m : ℚ) :
    Option String × List String × Bool :=
  match minByKey (lookupD distances) matching with
  | some primary =>
      (some primary, matching,
        decide (radiusOf primary - BUFFER_ZONE_METERS ≤
          lookupD distances primary))
  | none =>
      match minByKey Prod.snd distances with
      | none => (none, matching, false)
      | some c =>
          if c.2 ≤ max_unrecognized_distance_m then
            if c.2 ≤ radiusOf c.1 + BUFFER_ZONE_METERS then
              (some c.1, matching ++ [c.1], true)
            else
              (some (c.1 ++ "_nearby"), matching, false)
          else (none, matching, false)

/-- Embedding of detect_area_from_coordinates (src/location_service.py
lines 149-226), parameterized by the distance oracle d.  The Python
include_nearby and max_unrecognized_distance_m keyword defaults (false and
10000) are passed explicitly at every call site below. -/
def detect_area_from_coordinates (d : DistFn) (lat lon : ℚ)
    (include_nearby : Bool) (max_unrecognized_distance_m : ℚ) :
    DetectionResult :=
  let distances := distances_calculated d lat lon
  let matching := matching_areas d lat lon
  let core := detectCore distances matching max_unrecognized_distance_m
  { primary_area := core.1
    all_matching_areas := core.2.1
    nearby_areas :=
      if include_nearby then
        (distances.filter (fun p =>
          ¬ p.1 ∈ core.2.1 ∧ p.2 ≤ radiusOf p.1 + BUFFER_ZONE_METERS)).map
          (fun p => ⟨p.1, round2 p.2, round2 (p.2 - radiusOf p.1)⟩)
      else []
    is_on_edge := core.2.2
    distances :=
      if core.2.1.isEmpty then distances.map (fun p => (p.1, round2 p.2))
      else [] }

/-- Scanning loop of detect_area_from_coordinates_fast (lines 112-130):
first area whose quick check does not reject and whose exact distance is
within the strict radius.  The Python quick_check-is-True branch computes
the exact distance and, when it exceeds the radius, falls through to the
uncertain branch recomputing the same distance; both behaviours collapse to
the single non-rejecting arm here.  radius_with_buffer is the
AREA_BOUNDARIES_OPTIMIZED precomputation radius_m + BUFFER_ZONE_METERS. -/
def fastScan (d : DistFn) (lat lon : ℚ) :
    List (String × Boundary) → Option String
  | [] => none
  | (n, b) :: rest =>
      match quick_distance_check lat lon b.center_lat b.center_lon
          (b.radius_m + BUFFER_ZONE_METERS) with
      | some false => fastScan d lat lon rest
      | _ =>
          if d lat lon b.center_lat b.center_lon ≤ b.radius_m then some n
          else fastScan d lat lon rest

/-- Embedding of detect_area_from_coordinates_fast (src/location_service.py
lines 102-146): scan for a strict containment, else fall back to the
nearest center within 10 km, labelled with the _nearby suffix. -/
def detect_area_from_coordinates_fast (d : DistFn) (lat lon : ℚ) :
    Option String :=
  match fastScan d lat lon AREA_BOUNDARIES with
  | some a => some a
  | none =>
      match minByKey Prod.snd (distances_calculated d lat lon) with
      | some c => if c.2 ≤ 10000 then some (c.1 ++ "_nearby") else none
      | none => none

/-- Payload assembled by update_user_location (src/location_service.py
lines 260-310), restricted to the fields the claims are about; the
human-readable message and the Firestore write are dropped. -/
structure UpdatePayload where
  latitude : ℚ
  longitude : ℚ
  primary_area : Option String
  all_matching_areas : List String
  is_on_edge : Bool
  nearby_areas : List NearbyInfo
  accuracy : Option ℚ
deriving DecidableEq

/-- Embedding of update_user_location (src/location_service.py lines
229-310): coordinate validation, mode selection, payload assembly.  In
Python a coordinate out of range raises HTTPException(400, msg); here it is
the Except.error msg outcome.  The fast-mode branch wraps the single fast
result in the all_matching_areas list exactly as lines 248-253 do. -/
def update_user_location (d : DistFn) (latitude longitude : ℚ)
    (accuracy : Option ℚ) (fast_mode : Bool) :
    Except String UpdatePayload :=
  if ¬ (-90 ≤ latitude ∧ latitude ≤ 90) then
    Except.error "Latitude must be between -90 and 90"
  else if ¬ (-180 ≤ longitude ∧ longitude ≤ 180) then
    Except.error "Longitude must be between -180 and 180"
  else
    let info :=
      if fast_mode then
        match detect_area_from_coordinates_fast d latitude longitude with
        | some p => (some p, [p], false, ([] : List NearbyInfo))
        | none => (none, [], false, [])
      else
        let r := detect_area_from_coordinates d latitude longitude true 10000
        (r.primary_area, r.all_matching_areas, r.is_on_edge, r.nearby_areas)
    Except.ok
      { latitude := latitude
        longitude := longitude
        primary_area := info.1
        all_matching_areas := info.2.1
        is_on_edge := info.2.2.1
        nearby_areas := info.2.2.2
        accuracy := accuracy }

/-- Candidate user record as consumed by get_nearby_users: a document id
and, when stored, a GPS location (entries lacking one are skipped). -/
structure Candidate where
  uid : String
  gps_location : Option (ℚ × ℚ)
deriving DecidableEq

/-- Result record of get_nearby_users, restricted to the fields the claims
are about (identity and the two rounded distance fields). -/
structure NearbyUser where
  uid : String
  distance_meters : ℚ
  distance_km : ℚ
deriving DecidableEq

/-- Embedding of get_nearby_users (src/location_service.py lines 313-354):
the collaborator-supplied candidate stream is the users list parameter;
keep candidates with a stored location within radius_m, sort ascending by
the rounded distance_meters sort key of line 353, truncate to
max_results. -/
def get_nearby_users (d : DistFn) (latitude longitude radius_m : ℚ)
    (max_results : ℕ) (users : List Candidate) : List NearbyUser :=
  let collected := users.filterMap (fun u =>
    u.gps_location.bind (fun loc =>
      let distance := d latitude longitude loc.1 loc.2
      if distance ≤ radius_m then
        some ⟨u.uid, round2 distance, round2 (distance / 1000)⟩
      else none))
  (collected.mergeSort
    (fun a b => a.distance_meters ≤ b.distance_meters)).take max_results

noncomputable section RealHaversine

open Real

/-- Degrees-to-radians conversion, modelling Python math.radians. -/
def radians (x : ℝ) : ℝ := x * π / 180

/-- Two-argument arctangent, modelling Python math.atan2 (the C library
convention, with atan2 0 0 = 0). -/
def atan2 (y x : ℝ) : ℝ :=
  if 0 < x then arctan (y / x)
  else if x < 0 then
    if 0 ≤ y then arctan (y / x) + π else arctan (y / x) - π
  else
    if 0 < y then π / 2 else if y < 0 then -(π / 2) else 0

/-- Embedding of calculate_distance_meters (src/location_service.py lines
84-99): haversine great-circle distance over ℝ, Earth radius 6371000 m. -/
def calculate_distance_meters (lat1 lon1 lat2 lon2 : ℝ) : ℝ :=
  let R : ℝ := 6371000
  let lat1_rad := radians lat1
  let lat2_rad := radians lat2
  let delta_lat := radians (lat2 - lat1)
  let delta_lon := radians (lon2 - lon1)
  let a := sin (delta_lat / 2) ^ 2 +
    cos lat1_rad * cos lat2_rad * sin (delta_lon / 2) ^ 2
  let c := 2 * atan2 (sqrt a) (sqrt (1 - a))
  R * c

end RealHaversine

/-- Boolean test that a string ends with the reserved "_nearby" suffix,
phrased over the character list so that it evaluates on literals. -/
def endsWithNearby (s : String) : Bool :=
  List.isSuffixOf "_nearby".data s.data

/-- Distance oracle placing the query point 100 m from every center. -/
def dConst100 : DistFn := fun _ _ _ _ => 100

/-- Distance oracle placing the query point 20000 m from every center. -/
def dConst20000 : DistFn := fun _ _ _ _ => 20000

/-- Distance oracle placing the query point 380 m from every center. -/
def dConst380 : DistFn := fun _ _ _ _ => 380

/-- Distance oracle keyed on the center latitude, realizing the haversine
distances from the point (28.9709633, 77.1691): about 1556.4 m to the
Pallri center (same latitude, 0.0159977 degrees of longitude away) and far
outside every other area. -/
def dPallriEdge : DistFn := fun _ _ clat _ =>
  if clat = 28.9890834 then 2702
  else if clat = 28.9709633 then 1556.4
  else if clat = 28.9470954 then 8731
  else if clat = 28.9845887 then 12911
  else 7758

/-- Distance oracle keyed on the center latitude, realizing the haversine
distances from the point (28.977481, 77.072795): Bahalgarh is the nearest
center at about 3537.45 m (outside its 3250 m buffered radius) while
Sonepat sits at about 3540.16 m (inside its 3550 m buffered radius), and
every area is strictly outside its radius. -/
def dBahalgarhNearest : DistFn := fun _ _ clat _ =>
  if clat = 28.9890834 then 7680
  else if clat = 28.9709633 then 7845.64
  else if clat = 28.9470954 then 3537.45
  else if clat = 28.9845887 then 3540.16
  else 9401.24

/-- Distance oracle keyed on the center latitude, realizing the haversine
distances from the point (28.9845887, 77.0009238), due west of the Sonepat
center: Sonepat is nearest at about 3540.06 m (inside its 3550 m buffered
radius) and every other center is more than 9 km away. -/
def dSonepatWest : DistFn := fun _ _ clat _ =>
  if clat = 28.9890834 then 14569.78
  else if clat = 28.9709633 then 14880.37
  else if clat = 28.9470954 then 9056.41
  else if clat = 28.9845887 then 3540.06
  else 15120.59

/-- Distance oracle keyed on the center latitude, realizing the haversine
distances from the SBIT center (28.9890834, 77.1506293) itself: zero to
SBIT and the true center-to-center distances to the others. -/
def dSbitCenter : DistFn := fun _ _ clat _ =>
  if clat = 28.9890834 then 0
  else if clat = 28.9709633 then 2029.17
  else if clat = 28.9470954 then 8022.74
  else if clat = 28.9845887 then 11032.55
  else 9025.05

/-- Distance oracle keyed on the center latitude: 10 m from the Pallri
center and 9000 m from every other center. -/
def dPallriInside : DistFn := fun _ _ clat _ =>
  if clat = 28.9709633 then 10 else 9000

theorem minFold_mem (key : α → ℚ) :
    ∀ (l : List α) (x : α), minFold key x l ∈ x :: l
  | [], x => by simp [minFold]
  | y :: ys, x => by
    simp only [minFold]
    have h := minFold_mem key ys (if key y < key x then y else x)
    rcases List.mem_cons.mp h with h1 | h1
    · rw [h1]
      by_cases hc : key y < key x
      · simp [hc]
      · simp [hc]
    · exact List.mem_cons_of_mem _ (List.mem_cons_of_mem _ h1)

theorem minFold_le (key : α → ℚ) :
    ∀ (l : List α) (x : α), ∀ a ∈ x :: l, key (minFold key x l) ≤ key a
  | [], x => by simp [minFold]
  | y :: ys, x => by
    intro a ha
    simp only [minFold]
    have hself := minFold_le key ys (if key y < key x then y else x)
      _ (List.mem_cons_self _ _)
    have hx : key (minFold key (if key y < key x then y else x) ys) ≤
        key x := by
      by_cases hc : key y < key x
      · simp only [if_pos hc] at hself ⊢; linarith
      · simpa [if_neg hc] using hself
    have hy : key (minFold key (if key y < key x then y else x) ys) ≤
        key y := by
      by_cases hc : key y < key x
      · simpa [if_pos hc] using hself
      · simp only [if_neg hc] at hself ⊢
        push_neg at hc
        linarith
    rcases List.mem_cons.mp ha with rfl | ha1
    · exact hx
    rcases List.mem_cons.mp ha1 with rfl | ha2
    · exact hy
    · exact minFold_le key ys _ a (List.mem_cons_of_mem _ ha2)

theorem minByKey_eq_none {key : α → ℚ} {l : List α} :
    minByKey key l = none ↔ l = [] := by
  cases l <;> simp [minByKey]

theorem minByKey_mem {key : α → ℚ} {l : List α} {m : α}
    (h : minByKey key l = some m) : m ∈ l := by
  cases l with
  | nil => simp [minByKey] at h
  | cons x xs =>
    simp only [minByKey, Option.some.injEq] at h
    exact h ▸ minFold_mem key xs x

theorem minByKey_le {key : α → ℚ} {l : List α} {m : α}
    (h : minByKey key l = some m) : ∀ a ∈ l, key m ≤ key a := by
  cases l with
  | nil => simp
  | cons x xs =>
    simp only [minByKey, Option.some.injEq] at h
    exact h ▸ minFold_le key xs x

theorem minByKey_isSome (key : α → ℚ) {l : List α} (h : l ≠ []) :
    ∃ m, minByKey key l = some m := by
  cases l with
  | nil => exact absurd rfl h
  | cons x xs => exact ⟨_, rfl⟩

theorem lookup_distances_calculated (d : DistFn) (lat lon : ℚ)
    {n : String} {b : Boundary} (h : (n, b) ∈ AREA_BOUNDARIES) :
    lookupD (distances_calculated d lat lon) n = areaDist d lat lon b := by
  simp only [AREA_BOUNDARIES, List.mem_cons, List.not_mem_nil, or_false,
    Prod.mk.injEq] at h
  rcases h with ⟨rfl, rfl⟩ | ⟨rfl, rfl⟩ | ⟨rfl, rfl⟩ | ⟨rfl, rfl⟩ |
    ⟨rfl, rfl⟩ <;> rfl

theorem radiusOf_eq {n : String} {b : Boundary}
    (h : (n, b) ∈ AREA_BOUNDARIES) : radiusOf n = b.radius_m := by
  simp only [AREA_BOUNDARIES, List.mem_cons, List.not_mem_nil, or_false,
    Prod.mk.injEq] at h
  rcases h with ⟨rfl, rfl⟩ | ⟨rfl, rfl⟩ | ⟨rfl, rfl⟩ | ⟨rfl, rfl⟩ |
    ⟨rfl, rfl⟩ <;> rfl

theorem mem_matching_areas {d : DistFn} {lat lon : ℚ} {a : String} :
    a ∈ matching_areas d lat lon ↔
    ∃ b, (a, b) ∈ AREA_BOUNDARIES ∧ areaDist d lat lon b ≤ b.radius_m := by
  simp only [matching_areas, List.mem_map, List.mem_filter,
    decide_eq_true_eq]
  constructor
  · rintro ⟨⟨n, b⟩, ⟨hmem, hle⟩, rfl⟩
    exact ⟨b, hmem, hle⟩
  · rintro ⟨b, hmem, hle⟩
    exact ⟨(a, b), ⟨hmem, hle⟩, rfl⟩

theorem matching_areas_sub_names {d : DistFn} {lat lon : ℚ} {a : String}
    (h : a ∈ matching_areas d lat lon) : a ∈ AREA_NAMES := by
  rcases mem_matching_areas.mp h with ⟨b, hmem, _⟩
  exact List.mem_map.mpr ⟨(a, b), hmem, rfl⟩

theorem mem_distances_calculated {d : DistFn} {lat lon : ℚ}
    {p : String × ℚ} (h : p ∈ distances_calculated d lat lon) :
    ∃ b, (p.1, b) ∈ AREA_BOUNDARIES ∧ p.2 = areaDist d lat lon b := by
  rcases List.mem_map.mp h with ⟨⟨n, b⟩, hmem, heq⟩
  subst heq
  exact ⟨b, hmem, rfl⟩

theorem radius_le_3500 : ∀ p ∈ AREA_BOUNDARIES, (p : String × Boundary).2.radius_m ≤ 3500 := by
  intro p hp
  simp only [AREA_BOUNDARIES, List.mem_cons, List.not_mem_nil, or_false] at hp
  rcases hp with rfl | rfl | rfl | rfl | rfl <;> norm_num

/-- C6: quick_distance_check answers definitely-outside (some false)
exactly when the latitude or longitude difference exceeds
max_distance_m / 111000 degrees; definitely-within (some true) exactly when
it is not definitely-outside and both axis differences are below 0.009
degrees; and uncertain (none) in all remaining cases. -/
theorem c6_quick_distance_check_trichotomy
    (lat1 lon1 lat2 lon2 max_distance_m : ℚ) :
    (quick_distance_check lat1 lon1 lat2 lon2 max_distance_m = some false ↔
      (|lat1 - lat2| > max_distance_m / 111000 ∨
       |lon1 - lon2| > max_distance_m / 111000)) ∧
    (quick_distance_check lat1 lon1 lat2 lon2 max_distance_m = some true ↔
      (¬ (|lat1 - lat2| > max_distance_m / 111000 ∨
          |lon1 - lon2| > max_distance_m / 111000) ∧
       (|lat1 - lat2| < 0.009 ∧ |lon1 - lon2| < 0.009))) ∧
    (quick_distance_check lat1 lon1 lat2 lon2 max_distance_m = none ↔
      (¬ (|lat1 - lat2| > max_distance_m / 111000 ∨
          |lon1 - lon2| > max_distance_m / 111000) ∧
       ¬ (|lat1 - lat2| < 0.009 ∧ |lon1 - lon2| < 0.009))) := by
  simp only [quick_distance_check]
  split_ifs with h1 h2 <;> simp_all

/-- C8: the haversine distance of src/location_service.py is zero on
identical points and commutative in its two points. -/
theorem c8_calculate_distance_meters_zero_and_comm :
    (∀ lat lon : ℝ, calculate_distance_meters lat lon lat lon = 0) ∧
    (∀ lat1 lon1 lat2 lon2 : ℝ,
      calculate_distance_meters lat1 lon1 lat2 lon2 =
        calculate_distance_meters lat2 lon2 lat1 lon1) := by
  constructor
  · intro lat lon
    simp [calculate_distance_meters, radians, atan2]
  · intro lat1 lon1 lat2 lon2
    simp only [calculate_distance_meters]
    have h1 : Real.sin (radians (lat2 - lat1) / 2) ^ 2 =
        Real.sin (radians (lat1 - lat2) / 2) ^ 2 := by
      rw [show radians (lat2 - lat1) / 2 = -(radians (lat1 - lat2) / 2) by
        simp only [radians]; ring, Real.sin_neg, neg_sq]
    have h2 : Real.sin (radians (lon2 - lon1) / 2) ^ 2 =
        Real.sin (radians (lon1 - lon2) / 2) ^ 2 := by
      rw [show radians (lon2 - lon1) / 2 = -(radians (lon1 - lon2) / 2) by
        simp only [radians]; ring, Real.sin_neg, neg_sq]
    rw [h1, h2, mul_comm (Real.cos (radians lat1)) (Real.cos (radians lat2))]

/-- C1: whenever the strict first pass of full-mode detection finds at
least one area whose center distance is within its own radius, the returned
primary_area is a matching area whose center distance is smallest among all
matching areas, and is_on_edge holds exactly when that smallest distance is
at least radius_m - BUFFER_ZONE_METERS of the primary area. -/
theorem c1_full_mode_primary_closest (d : DistFn) (lat lon : ℚ)
    (include_nearby : Bool) (maxd : ℚ)
    (h : matching_areas d lat lon ≠ []) :
    ∃ p bp,
      (detect_area_from_coordinates d lat lon include_nearby
        maxd).primary_area = some p ∧
      (p, bp) ∈ AREA_BOUNDARIES ∧
      areaDist d lat lon bp ≤ bp.radius_m ∧
      (∀ n b, (n, b) ∈ AREA_BOUNDARIES → areaDist d lat lon b ≤ b.radius_m →
        areaDist d lat lon bp ≤ areaDist d lat lon b) ∧
      ((detect_area_from_coordinates d lat lon include_nearby
          maxd).is_on_edge = true ↔
        bp.radius_m - BUFFER_ZONE_METERS ≤ areaDist d lat lon bp) := by
  obtain ⟨m, hm⟩ :=
    minByKey_isSome (lookupD (distances_calculated d lat lon)) h
  obtain ⟨bp, hbp, hple⟩ := mem_matching_areas.mp (minByKey_mem hm)
  refine ⟨m, bp, ?_, hbp, hple, ?_, ?_⟩
  · simp [detect_area_from_coordinates, detectCore, hm]
  · intro n b hnb hble
    have hn : n ∈ matching_areas d lat lon :=
      mem_matching_areas.mpr ⟨b, hnb, hble⟩
    have := minByKey_le hm n hn
    rwa [lookup_distances_calculated d lat lon hbp,
      lookup_distances_calculated d lat lon hnb] at this
  · simp only [detect_area_from_coordinates, detectCore, hm]
    rw [lookup_distances_calculated d lat lon hbp, radiusOf_eq hbp]
    simp

theorem c1_full_mode_primary_closest_witness :
    matching_areas dConst100 28 77 ≠ [] ∧
    ∃ p bp,
      (detect_area_from_coordinates dConst100 28 77 true
        10000).primary_area = some p ∧
      (p, bp) ∈ AREA_BOUNDARIES ∧
      areaDist dConst100 28 77 bp ≤ bp.radius_m ∧
      (∀ n b, (n, b) ∈ AREA_BOUNDARIES →
        areaDist dConst100 28 77 b ≤ b.radius_m →
        areaDist dConst100 28 77 bp ≤ areaDist dConst100 28 77 b) ∧
      ((detect_area_from_coordinates dConst100 28 77 true
          10000).is_on_edge = true ↔
        bp.radius_m - BUFFER_ZONE_METERS ≤ areaDist dConst100 28 77 bp) := by
  have h : matching_areas dConst100 28 77 ≠ [] := by
    intro hc
    rw [show matching_areas dConst100 28 77 =
      ["SBIT", "Pallri", "Bahalgarh", "Sonepat", "TDI"] from by
        norm_num [matching_areas, AREA_BOUNDARIES, areaDist, dConst100]] at hc
    exact absurd hc (by simp)
  exact ⟨h, c1_full_mode_primary_closest dConst100 28 77 true 10000 h⟩

theorem AREA_NAMES_not_nearby :
    ∀ n ∈ AREA_NAMES, endsWithNearby n = false := by decide

theorem detectCore_some {distances : List (String × ℚ)}
    {matching : List String} {maxd : ℚ} {m : String}
    (hm : minByKey (lookupD distances) matching = some m) :
    detectCore distances matching maxd =
      (some m, matching,
        decide (radiusOf m - BUFFER_ZONE_METERS ≤ lookupD distances m)) := by
  unfold detectCore
  rw [hm]

theorem detectCore_empty_far {distances : List (String × ℚ)} {maxd : ℚ}
    {c : String × ℚ} (hc : minByKey Prod.snd distances = some c)
    (hcd : ¬ (c.2 ≤ maxd)) :
    detectCore distances [] maxd = (none, [], false) := by
  obtain ⟨c1, c2⟩ := c
  unfold detectCore
  rw [show minByKey (lookupD distances) ([] : List String) = none from rfl,
    hc]
  dsimp only
  rw [if_neg hcd]

theorem detectCore_empty_buffered {distances : List (String × ℚ)}
    {maxd : ℚ} {c : String × ℚ}
    (hc : minByKey Prod.snd distances = some c) (h1 : c.2 ≤ maxd)
    (h2 : c.2 ≤ radiusOf c.1 + BUFFER_ZONE_METERS) :
    detectCore distances [] maxd = (some c.1, [c.1], true) := by
  obtain ⟨c1, c2⟩ := c
  unfold detectCore
  rw [show minByKey (lookupD distances) ([] : List String) = none from rfl,
    hc]
  dsimp only
  rw [if_pos h1, if_pos h2]
  rfl

theorem detectCore_empty_nearby {distances : List (String × ℚ)}
    {maxd : ℚ} {c : String × ℚ}
    (hc : minByKey Prod.snd distances = some c) (h1 : c.2 ≤ maxd)
    (h2 : ¬ (c.2 ≤ radiusOf c.1 + BUFFER_ZONE_METERS)) :
    detectCore distances [] maxd = (some (c.1 ++ "_nearby"), [], false) := by
  obtain ⟨c1, c2⟩ := c
  unfold detectCore
  rw [show minByKey (lookupD distances) ([] : List String) = none from rfl,
    hc]
  dsimp only
  rw [if_pos h1, if_neg h2]

theorem detect_fields (d : DistFn) (lat lon : ℚ) (include_nearby : Bool)
    (maxd : ℚ) :
    (detect_area_from_coordinates d lat lon include_nearby
        maxd).primary_area =
      (detectCore (distances_calculated d lat lon)
        (matching_areas d lat lon) maxd).1 ∧
    (detect_area_from_coordinates d lat lon include_nearby
        maxd).all_matching_areas =
      (detectCore (distances_calculated d lat lon)
        (matching_areas d lat lon) maxd).2.1 ∧
    (detect_area_from_coordinates d lat lon include_nearby
        maxd).is_on_edge =
      (detectCore (distances_calculated d lat lon)
        (matching_areas d lat lon) maxd).2.2 :=
  ⟨rfl, rfl, rfl⟩

theorem fastScan_none (d : DistFn) (lat lon : ℚ)
    (l : List (String × Boundary))
    (h : ∀ p ∈ l,
      ¬ (d lat lon (p : String × Boundary).2.center_lat p.2.center_lon ≤
        p.2.radius_m)) :
    fastScan d lat lon l = none := by
  induction l with
  | nil => rfl
  | cons p rest ih =>
    obtain ⟨n, b⟩ := p
    have hd := h (n, b) (List.mem_cons_self _ _)
    have hrest := ih (fun q hq => h q (List.mem_cons_of_mem _ hq))
    cases hq : quick_distance_check lat lon b.center_lat b.center_lon
        (b.radius_m + BUFFER_ZONE_METERS) with
    | none => simp only [fastScan, hq, if_neg hd]; exact hrest
    | some v =>
      cases v with
      | false => simp only [fastScan, hq]; exact hrest
      | true => simp only [fastScan, hq, if_neg hd]; exact hrest

theorem distances_calculated_ne_nil (d : DistFn) (lat lon : ℚ) :
    distances_calculated d lat lon ≠ [] := by
  simp [distances_calculated, AREA_BOUNDARIES]

/-- C5: for a point farther than 10000 m from every registered center
(according to the distance function), full-mode detection returns a null
primary area and an empty matching list, and fast-mode detection also
returns none. -/
theorem c5_far_point_unrecognized (d : DistFn) (lat lon : ℚ)
    (include_nearby : Bool)
    (h : ∀ n b, (n, b) ∈ AREA_BOUNDARIES → 10000 < areaDist d lat lon b) :
    (detect_area_from_coordinates d lat lon include_nearby
      10000).primary_area = none ∧
    (detect_area_from_coordinates d lat lon include_nearby
      10000).all_matching_areas = [] ∧
    detect_area_from_coordinates_fast d lat lon = none := by
  have houtside : ∀ p ∈ AREA_BOUNDARIES,
      ¬ (areaDist d lat lon (p : String × Boundary).2 ≤ p.2.radius_m) := by
    intro p hp
    have h1 := h p.1 p.2 hp
    have h2 := radius_le_3500 p hp
    intro hc
    linarith
  have hmatch : matching_areas d lat lon = [] := by
    simp only [matching_areas, List.map_eq_nil_iff, List.filter_eq_nil_iff,
      decide_eq_true_eq]
    exact houtside
  obtain ⟨c, hc⟩ := minByKey_isSome (Prod.snd : String × ℚ → ℚ)
    (distances_calculated_ne_nil d lat lon)
  have hcd : ¬ (c.2 ≤ (10000 : ℚ)) := by
    obtain ⟨b, hb, heq⟩ := mem_distances_calculated (minByKey_mem hc)
    rw [heq]
    exact not_le.mpr (h c.1 b hb)
  obtain ⟨hf1, hf2, _⟩ := detect_fields d lat lon include_nearby 10000
  have hcore : detectCore (distances_calculated d lat lon)
      (matching_areas d lat lon) 10000 = (none, [], false) := by
    rw [hmatch]
    exact detectCore_empty_far hc hcd
  refine ⟨?_, ?_, ?_⟩
  · rw [hf1, hcore]
  · rw [hf2, hcore]
  · have hscan := fastScan_none d lat lon AREA_BOUNDARIES
      (fun p hp => houtside p hp)
    obtain ⟨c1, c2⟩ := c
    unfold detect_area_from_coordinates_fast
    rw [hscan, hc]
    dsimp only
    rw [if_neg hcd]

theorem c5_far_point_unrecognized_witness :
    (∀ n b, (n, b) ∈ AREA_BOUNDARIES →
      10000 < areaDist dConst20000 28 77 b) ∧
    ((detect_area_from_coordinates dConst20000 28 77 true
        10000).primary_area = none ∧
      (detect_area_from_coordinates dConst20000 28 77 true
        10000).all_matching_areas = [] ∧
      detect_area_from_coordinates_fast dConst20000 28 77 = none) := by
  have h : ∀ n b, (n, b) ∈ AREA_BOUNDARIES →
      10000 < areaDist dConst20000 28 77 b := by
    intro n b _
    norm_num [areaDist, dConst20000]
  exact ⟨h, c5_far_point_unrecognized dConst20000 28 77 true h⟩

/-- C10: invariants of the full-mode detection result: whenever is_on_edge
is true the primary area is a registered area name and a member of
all_matching_areas; whenever the primary area is null or carries the
_nearby suffix, is_on_edge is false and all_matching_areas is empty. -/
theorem c10_full_mode_invariants (d : DistFn) (lat lon : ℚ)
    (include_nearby : Bool) (maxd : ℚ) :
    ((detect_area_from_coordinates d lat lon include_nearby
        maxd).is_on_edge = true →
      ∃ p, (detect_area_from_coordinates d lat lon include_nearby
          maxd).primary_area = some p ∧ p ∈ AREA_NAMES ∧
        p ∈ (detect_area_from_coordinates d lat lon include_nearby
          maxd).all_matching_areas) ∧
    (((detect_area_from_coordinates d lat lon include_nearby
          maxd).primary_area = none ∨
      (∃ p, (detect_area_from_coordinates d lat lon include_nearby
          maxd).primary_area = some p ∧ endsWithNearby p = true)) →
      ((detect_area_from_coordinates d lat lon include_nearby
          maxd).is_on_edge = false ∧
       (detect_area_from_coordinates d lat lon include_nearby
          maxd).all_matching_areas = [])) := by
  obtain ⟨hf1, hf2, hf3⟩ := detect_fields d lat lon include_nearby maxd
  rw [hf1, hf2, hf3]
  cases hm : minByKey (lookupD (distances_calculated d lat lon))
      (matching_areas d lat lon) with
  | some m =>
    rw [detectCore_some hm]
    have hmem := matching_areas_sub_names (minByKey_mem hm)
    constructor
    · intro _
      exact ⟨m, rfl, hmem, minByKey_mem hm⟩
    · rintro (hnone | ⟨p, hp, hnear⟩)
      · exact absurd hnone (by simp)
      · rw [Option.some.injEq] at hp
        rw [← hp, AREA_NAMES_not_nearby m hmem] at hnear
        exact absurd hnear (by simp)
  | none =>
    have hmat : matching_areas d lat lon = [] := minByKey_eq_none.mp hm
    obtain ⟨c, hc⟩ := minByKey_isSome (Prod.snd : String × ℚ → ℚ)
      (distances_calculated_ne_nil d lat lon)
    have hnames : c.1 ∈ AREA_NAMES := by
      obtain ⟨b, hb, _⟩ := mem_distances_calculated (minByKey_mem hc)
      exact List.mem_map.mpr ⟨(c.1, b), hb, rfl⟩
    by_cases h1 : c.2 ≤ maxd
    · by_cases h2 : c.2 ≤ radiusOf c.1 + BUFFER_ZONE_METERS
      · rw [hmat, detectCore_empty_buffered hc h1 h2]
        constructor
        · intro _
          exact ⟨c.1, rfl, hnames, List.mem_singleton_self _⟩
        · rintro (hnone | ⟨p, hp, hnear⟩)
          · exact absurd hnone (by simp)
          · rw [Option.some.injEq] at hp
            rw [← hp, AREA_NAMES_not_nearby c.1 hnames] at hnear
            exact absurd hnear (by simp)
      · rw [hmat, detectCore_empty_nearby hc h1 h2]
        exact ⟨fun hedge => absurd hedge (by simp),
          fun _ => ⟨rfl, rfl⟩⟩
    · rw [hmat, detectCore_empty_far hc h1]
      exact ⟨fun hedge => absurd hedge (by simp),
        fun _ => ⟨rfl, rfl⟩⟩

theorem c10_full_mode_invariants_witness :
    (detect_area_from_coordinates dConst380 28 77 true
      10000).is_on_edge = true ∧
    ∃ p, (detect_area_from_coordinates dConst380 28 77 true
        10000).primary_area = some p ∧ p ∈ AREA_NAMES ∧
      p ∈ (detect_area_from_coordinates dConst380 28 77 true
        10000).all_matching_areas := by
  have hmat : matching_areas dConst380 28 77 =
      ["SBIT", "Pallri", "Bahalgarh", "Sonepat", "TDI"] := by
    norm_num [matching_areas, AREA_BOUNDARIES, areaDist, dConst380]
  have hm : minByKey (lookupD (distances_calculated dConst380 28 77))
      (matching_areas dConst380 28 77) = some "SBIT" := by
    rw [hmat]
    rfl
  have hedge : (detect_area_from_coordinates dConst380 28 77 true
      10000).is_on_edge = true := by
    rw [(detect_fields dConst380 28 77 true 10000).2.2, detectCore_some hm]
    norm_num [show radiusOf "SBIT" = 407.93 from rfl,
      show lookupD (distances_calculated dConst380 28 77) "SBIT" = 380
        from rfl, BUFFER_ZONE_METERS]
  exact ⟨hedge, (c10_full_mode_invariants dConst380 28 77 true 10000).1
    hedge⟩

/-- C9: update_user_location yields a validation error exactly when the
latitude is outside [-90, 90] or the longitude is outside [-180, 180]; on
every in-range coordinate it returns a payload, so a point matching no
area is an ordinary result rather than a failure. -/
theorem c9_update_validation (d : DistFn) (lat lon : ℚ)
    (accuracy : Option ℚ) (fast_mode : Bool) :
    ((∃ e, update_user_location d lat lon accuracy fast_mode =
        Except.error e) ↔
      (¬ (-90 ≤ lat ∧ lat ≤ 90) ∨ ¬ (-180 ≤ lon ∧ lon ≤ 180))) ∧
    ((-90 ≤ lat ∧ lat ≤ 90) → (-180 ≤ lon ∧ lon ≤ 180) →
      ∃ p, update_user_location d lat lon accuracy fast_mode =
        Except.ok p) := by
  by_cases h1 : -90 ≤ lat ∧ lat ≤ 90
  · by_cases h2 : -180 ≤ lon ∧ lon ≤ 180
    · constructor
      · rw [update_user_location, if_neg (not_not_intro h1),
          if_neg (not_not_intro h2)]
        simp [h1, h2]
      · intro _ _
        rw [update_user_location, if_neg (not_not_intro h1),
          if_neg (not_not_intro h2)]
        exact ⟨_, rfl⟩
    · constructor
      · rw [update_user_location, if_neg (not_not_intro h1), if_pos h2]
        simp [h2]
      · intro _ hb
        exact absurd hb h2
  · constructor
    · rw [update_user_location, if_pos h1]
      simp [h1]
    · intro ha _
      exact absurd ha h1

theorem c9_update_validation_witness :
    ((-90 : ℚ) ≤ 28 ∧ (28 : ℚ) ≤ 90) ∧ ((-180 : ℚ) ≤ 77 ∧ (77 : ℚ) ≤ 180) ∧
    ∃ p, update_user_location dConst100 28 77 none false = Except.ok p := by
  have ha : (-90 : ℚ) ≤ 28 ∧ (28 : ℚ) ≤ 90 := by norm_num
  have hb : (-180 : ℚ) ≤ 77 ∧ (77 : ℚ) ≤ 180 := by norm_num
  exact ⟨ha, hb,
    (c9_update_validation dConst100 28 77 none false).2 ha hb⟩

/-- C7: every record returned by get_nearby_users originates from a
candidate with a stored location whose distance to the query point is
within radius_m; the returned list is ascending in its distance_meters sort
key; and its length never exceeds max_results. -/
theorem c7_get_nearby_users_sound (d : DistFn) (lat lon radius_m : ℚ)
    (max_results : ℕ) (users : List Candidate) :
    (∀ r ∈ get_nearby_users d lat lon radius_m max_results users,
      ∃ u ∈ users, ∃ loc, u.gps_location = some loc ∧
        (r : NearbyUser).uid = u.uid ∧ d lat lon loc.1 loc.2 ≤ radius_m) ∧
    List.Pairwise
      (fun a b : NearbyUser => a.distance_meters ≤ b.distance_meters)
      (get_nearby_users d lat lon radius_m max_results users) ∧
    (get_nearby_users d lat lon radius_m max_results users).length ≤
      max_results := by
  refine ⟨?_, ?_, ?_⟩
  · intro r hr
    unfold get_nearby_users at hr
    have hr2 := List.mem_mergeSort.mp (List.mem_of_mem_take hr)
    obtain ⟨u, hu, hf⟩ := List.mem_filterMap.mp hr2
    cases hloc : u.gps_location with
    | none => rw [hloc] at hf; exact absurd hf (by simp)
    | some loc =>
      rw [hloc] at hf
      simp only [Option.some_bind] at hf
      by_cases hd : d lat lon loc.1 loc.2 ≤ radius_m
      · rw [if_pos hd] at hf
        obtain rfl := Option.some.inj hf
        exact ⟨u, hu, loc, hloc, rfl, hd⟩
      · rw [if_neg hd] at hf
        exact absurd hf (by simp)
  · unfold get_nearby_users
    apply List.Pairwise.sublist (List.take_sublist _ _)
    have h := @List.sorted_mergeSort NearbyUser
      (fun a b : NearbyUser =>
        decide (a.distance_meters ≤ b.distance_meters))
      (fun a b c hab hbc => by
        simp only [decide_eq_true_eq] at hab hbc ⊢
        exact le_trans hab hbc)
      (fun a b => by
        simp only [Bool.or_eq_true, decide_eq_true_eq]
        exact le_total _ _)
    exact (h _).imp (fun hab => of_decide_eq_true hab)
  · unfold get_nearby_users
    exact List.length_take_le _ _

theorem AREA_NAMES_nodup : AREA_NAMES.Nodup := by decide

theorem quick_check_not_false {lat1 lon1 lat2 lon2 max_m : ℚ}
    (h1 : |lat1 - lat2| ≤ max_m / 111000)
    (h2 : |lon1 - lon2| ≤ max_m / 111000) :
    quick_distance_check lat1 lon1 lat2 lon2 max_m ≠ some false := by
  simp only [quick_distance_check]
  rw [if_neg (by push_neg; exact ⟨h1, h2⟩)]
  split_ifs <;> simp

theorem quick_check_false_of {lat1 lon1 lat2 lon2 max_m : ℚ}
    (h : max_m / 111000 < |lat1 - lat2| ∨ max_m / 111000 < |lon1 - lon2|) :
    quick_distance_check lat1 lon1 lat2 lon2 max_m = some false := by
  simp only [quick_distance_check]
  rw [if_pos h]

theorem fastScan_hits (d : DistFn) (lat lon : ℚ) (n : String)
    (b : Boundary) :
    ∀ (l1 l2 : List (String × Boundary)),
    (∀ p ∈ l1, ¬ (d lat lon (p : String × Boundary).2.center_lat
      p.2.center_lon ≤ p.2.radius_m)) →
    quick_distance_check lat lon b.center_lat b.center_lon
      (b.radius_m + BUFFER_ZONE_METERS) ≠ some false →
    d lat lon b.center_lat b.center_lon ≤ b.radius_m →
    fastScan d lat lon (l1 ++ (n, b) :: l2) = some n
  | [], l2, _, hq, hd => by
    rw [List.nil_append]
    cases hqv : quick_distance_check lat lon b.center_lat b.center_lon
        (b.radius_m + BUFFER_ZONE_METERS) with
    | none => simp only [fastScan, hqv, if_pos hd]
    | some v =>
      cases v with
      | false => exact absurd hqv hq
      | true => simp only [fastScan, hqv, if_pos hd]
  | q :: l1, l2, hskip, hq, hd => by
    obtain ⟨m, c⟩ := q
    have hdm := hskip (m, c) (List.mem_cons_self _ _)
    have hrest := fastScan_hits d lat lon n b l1 l2
      (fun p hp => hskip p (List.mem_cons_of_mem _ hp)) hq hd
    rw [List.cons_append]
    cases hqv : quick_distance_check lat lon c.center_lat c.center_lon
        (c.radius_m + BUFFER_ZONE_METERS) with
    | none => simp only [fastScan, hqv, if_neg hdm]; exact hrest
    | some v =>
      cases v with
      | false => simp only [fastScan, hqv]; exact hrest
      | true => simp only [fastScan, hqv, if_neg hdm]; exact hrest

theorem fastScan_mem {d : DistFn} {lat lon : ℚ} :
    ∀ {l : List (String × Boundary)} {s : String},
    fastScan d lat lon l = some s → ∃ b, (s, b) ∈ l := by
  intro l
  induction l with
  | nil => intro s h; exact absurd h (by simp [fastScan])
  | cons q rest ih =>
    obtain ⟨m, c⟩ := q
    intro s h
    cases hqv : quick_distance_check lat lon c.center_lat c.center_lon
        (c.radius_m + BUFFER_ZONE_METERS) with
    | none =>
      simp only [fastScan, hqv] at h
      by_cases hd : d lat lon c.center_lat c.center_lon ≤ c.radius_m
      · rw [if_pos hd] at h
        obtain rfl := (Option.some.inj h).symm
        exact ⟨c, List.mem_cons_self _ _⟩
      · rw [if_neg hd] at h
        obtain ⟨b, hb⟩ := ih h
        exact ⟨b, List.mem_cons_of_mem _ hb⟩
    | some v =>
      cases v with
      | false =>
        simp only [fastScan, hqv] at h
        obtain ⟨b, hb⟩ := ih h
        exact ⟨b, List.mem_cons_of_mem _ hb⟩
      | true =>
        simp only [fastScan, hqv] at h
        by_cases hd : d lat lon c.center_lat c.center_lon ≤ c.radius_m
        · rw [if_pos hd] at h
          obtain rfl := (Option.some.inj h).symm
          exact ⟨c, List.mem_cons_self _ _⟩
        · rw [if_neg hd] at h
          obtain ⟨b, hb⟩ := ih h
          exact ⟨b, List.mem_cons_of_mem _ hb⟩

theorem fast_result_shape {d : DistFn} {lat lon : ℚ} {s : String}
    (h : detect_area_from_coordinates_fast d lat lon = some s) :
    s ∈ AREA_NAMES ∨ ∃ n ∈ AREA_NAMES, s = n ++ "_nearby" := by
  unfold detect_area_from_coordinates_fast at h
  cases hscan : fastScan d lat lon AREA_BOUNDARIES with
  | some a =>
    rw [hscan] at h
    obtain ⟨b, hb⟩ := fastScan_mem hscan
    obtain rfl := Option.some.inj h
    exact Or.inl (List.mem_map.mpr ⟨(a, b), hb, rfl⟩)
  | none =>
    rw [hscan] at h
    cases hc : minByKey Prod.snd (distances_calculated d lat lon) with
    | none => rw [hc] at h; exact absurd h (by simp)
    | some c =>
      rw [hc] at h
      obtain ⟨c1, c2⟩ := c
      dsimp only at h
      by_cases h1 : c2 ≤ (10000 : ℚ)
      · rw [if_pos h1] at h
        obtain ⟨b, hb, _⟩ := mem_distances_calculated (minByKey_mem hc)
        exact Or.inr ⟨c1, List.mem_map.mpr ⟨(c1, b), hb, rfl⟩,
          (Option.some.inj h).symm⟩
      · rw [if_neg h1] at h
        exact absurd h (by simp)

/-- C2 (amended): for a point strictly inside exactly one area (distance
below radius_m - BUFFER_ZONE_METERS, every other area strictly farther than
its radius) whose per-axis degree offsets from that area's center are at
most (radius_m + BUFFER_ZONE_METERS)/111000 — so the bounding-box
pre-filter cannot spuriously reject the area — fast mode returns that area
and full mode returns the same area with is_on_edge false. -/
theorem c2_fast_full_agree_strictly_inside (d : DistFn) (lat lon : ℚ)
    (include_nearby : Bool) (maxd : ℚ) (n : String) (b : Boundary)
    (hmem : (n, b) ∈ AREA_BOUNDARIES)
    (hin : areaDist d lat lon b < b.radius_m - BUFFER_ZONE_METERS)
    (hothers : ∀ n2 b2, (n2, b2) ∈ AREA_BOUNDARIES → n2 ≠ n →
      b2.radius_m < areaDist d lat lon b2)
    (hq1 : |lat - b.center_lat| ≤
      (b.radius_m + BUFFER_ZONE_METERS) / 111000)
    (hq2 : |lon - b.center_lon| ≤
      (b.radius_m + BUFFER_ZONE_METERS) / 111000) :
    detect_area_from_coordinates_fast d lat lon = some n ∧
    (detect_area_from_coordinates d lat lon include_nearby
      maxd).primary_area = some n ∧
    (detect_area_from_coordinates d lat lon include_nearby
      maxd).is_on_edge = false := by
  have hb50 : (0 : ℚ) < BUFFER_ZONE_METERS := by norm_num [BUFFER_ZONE_METERS]
  have hd : d lat lon b.center_lat b.center_lon ≤ b.radius_m := by
    have h := hin
    unfold areaDist at h
    linarith
  obtain ⟨l1, l2, hsplit⟩ := List.append_of_mem hmem
  have hnodup := AREA_NAMES_nodup
  rw [show AREA_NAMES = AREA_BOUNDARIES.map Prod.fst from rfl, hsplit,
    List.map_append, List.map_cons, List.nodup_append] at hnodup
  have hnotl1 : ∀ p ∈ l1, (p : String × Boundary).1 ≠ n := by
    intro p hp heq
    have hmm : p.1 ∈ List.map Prod.fst l1 := List.mem_map_of_mem Prod.fst hp
    rw [heq] at hmm
    exact hnodup.2.2 hmm (List.mem_cons_self _ _)
  have hnotl2 : ∀ p ∈ l2, (p : String × Boundary).1 ≠ n := by
    intro p hp heq
    have hmm : p.1 ∈ List.map Prod.fst l2 := List.mem_map_of_mem Prod.fst hp
    rw [heq] at hmm
    exact (List.nodup_cons.mp hnodup.2.1).1 hmm
  have hskip1 : ∀ p ∈ l1, ¬ (d lat lon (p : String × Boundary).2.center_lat
      p.2.center_lon ≤ p.2.radius_m) := by
    intro p hp hc
    have hpmem : p ∈ AREA_BOUNDARIES := by
      rw [hsplit]; exact List.mem_append_left _ hp
    have h := hothers p.1 p.2 hpmem (hnotl1 p hp)
    unfold areaDist at h
    exact absurd hc (not_le.mpr h)
  have hskip2 : ∀ p ∈ l2, ¬ (d lat lon (p : String × Boundary).2.center_lat
      p.2.center_lon ≤ p.2.radius_m) := by
    intro p hp hc
    have hpmem : p ∈ AREA_BOUNDARIES := by
      rw [hsplit]
      exact List.mem_append_right _ (List.mem_cons_of_mem _ hp)
    have h := hothers p.1 p.2 hpmem (hnotl2 p hp)
    unfold areaDist at h
    exact absurd hc (not_le.mpr h)
  have hfast : detect_area_from_coordinates_fast d lat lon = some n := by
    unfold detect_area_from_coordinates_fast
    rw [show fastScan d lat lon AREA_BOUNDARIES = some n from by
      rw [hsplit]
      exact fastScan_hits d lat lon n b l1 l2 hskip1
        (quick_check_not_false hq1 hq2) hd]
  have hfl1 : List.filter (fun p =>
      decide (areaDist d lat lon (p : String × Boundary).2 ≤
        p.2.radius_m)) l1 = [] := by
    rw [List.filter_eq_nil_iff]
    intro p hp
    simp only [decide_eq_true_eq]
    intro hc
    unfold areaDist at hc
    exact hskip1 p hp hc
  have hfl2 : List.filter (fun p =>
      decide (areaDist d lat lon (p : String × Boundary).2 ≤
        p.2.radius_m)) l2 = [] := by
    rw [List.filter_eq_nil_iff]
    intro p hp
    simp only [decide_eq_true_eq]
    intro hc
    unfold areaDist at hc
    exact hskip2 p hp hc
  have hfil : matching_areas d lat lon = [n] := by
    unfold matching_areas
    rw [hsplit, List.filter_append, hfl1, List.filter_cons,
      if_pos (by simpa using hin.le.trans (by linarith)), hfl2]
    rfl
  have hmbk : minByKey (lookupD (distances_calculated d lat lon))
      (matching_areas d lat lon) = some n := by
    rw [hfil]; rfl
  obtain ⟨hf1, _, hf3⟩ := detect_fields d lat lon include_nearby maxd
  refine ⟨hfast, ?_, ?_⟩
  · rw [hf1, detectCore_some hmbk]
  · rw [hf3, detectCore_some hmbk]
    dsimp only
    rw [radiusOf_eq hmem, lookup_distances_calculated d lat lon hmem]
    exact decide_eq_false (not_le.mpr hin)

/-- Counterexample refuting C2 as stated: at the point
(28.9709633, 77.1691) — same latitude as the Pallri center, 0.0159977
degrees of longitude east of it — with center distances as realized by
dPallriEdge, the point is strictly inside Pallri only (1556.4 < 1650 =
radius - buffer) and strictly outside every other area, yet fast mode
answers "Pallri_nearby" because the bounding-box pre-filter rejects Pallri
(0.0159977 > 1750/111000), while full mode answers "Pallri" with
is_on_edge false. -/
theorem c2_counterexample :
    areaDist dPallriEdge 28.9709633 77.1691
        ⟨28.9709633, 77.1531023, 1700⟩ <
      1700 - BUFFER_ZONE_METERS ∧
    407.93 < areaDist dPallriEdge 28.9709633 77.1691
      ⟨28.9890834, 77.1506293, 407.93⟩ ∧
    3200 < areaDist dPallriEdge 28.9709633 77.1691
      ⟨28.9470954, 77.0835646, 3200⟩ ∧
    3500 < areaDist dPallriEdge 28.9709633 77.1691
      ⟨28.9845887, 77.0373188, 3500⟩ ∧
    2300 < areaDist dPallriEdge 28.9709633 77.1691
      ⟨28.9098117, 77.1307161, 2300⟩ ∧
    (detect_area_from_coordinates dPallriEdge 28.9709633 77.1691 true
      10000).primary_area = some "Pallri" ∧
    (detect_area_from_coordinates dPallriEdge 28.9709633 77.1691 true
      10000).is_on_edge = false ∧
    detect_area_from_coordinates_fast dPallriEdge 28.9709633 77.1691 =
      some "Pallri_nearby" ∧
    ¬ (detect_area_from_coordinates_fast dPallriEdge 28.9709633 77.1691 =
      some "Pallri") := by
  have hq1 : quick_distance_check 28.9709633 77.1691 28.9890834 77.1506293
      (407.93 + BUFFER_ZONE_METERS) = some false :=
    quick_check_false_of (Or.inl (by
      rw [abs_sub_comm,
        abs_of_nonneg (by norm_num : (0:ℚ) ≤ 28.9890834 - 28.9709633)]
      norm_num [BUFFER_ZONE_METERS]))
  have hq2 : quick_distance_check 28.9709633 77.1691 28.9709633 77.1531023
      (1700 + BUFFER_ZONE_METERS) = some false :=
    quick_check_false_of (Or.inr (by
      rw [abs_of_nonneg (by norm_num : (0:ℚ) ≤ 77.1691 - 77.1531023)]
      norm_num [BUFFER_ZONE_METERS]))
  have hq3 : quick_distance_check 28.9709633 77.1691 28.9470954 77.0835646
      (3200 + BUFFER_ZONE_METERS) = some false :=
    quick_check_false_of (Or.inr (by
      rw [abs_of_nonneg (by norm_num : (0:ℚ) ≤ 77.1691 - 77.0835646)]
      norm_num [BUFFER_ZONE_METERS]))
  have hq4 : quick_distance_check 28.9709633 77.1691 28.9845887 77.0373188
      (3500 + BUFFER_ZONE_METERS) = some false :=
    quick_check_false_of (Or.inr (by
      rw [abs_of_nonneg (by norm_num : (0:ℚ) ≤ 77.1691 - 77.0373188)]
      norm_num [BUFFER_ZONE_METERS]))
  have hq5 : quick_distance_check 28.9709633 77.1691 28.9098117 77.1307161
      (2300 + BUFFER_ZONE_METERS) = some false :=
    quick_check_false_of (Or.inl (by
      rw [abs_of_nonneg (by norm_num : (0:ℚ) ≤ 28.9709633 - 28.9098117)]
      norm_num [BUFFER_ZONE_METERS]))
  have hscan : fastScan dPallriEdge 28.9709633 77.1691 AREA_BOUNDARIES =
      none := by
    simp only [AREA_BOUNDARIES, fastScan, hq1, hq2, hq3, hq4, hq5]
  have hdist : distances_calculated dPallriEdge 28.9709633 77.1691 =
      [("SBIT", 2702), ("Pallri", 1556.4), ("Bahalgarh", 8731),
       ("Sonepat", 12911), ("TDI", 7758)] := by
    norm_num [distances_calculated, AREA_BOUNDARIES, areaDist, dPallriEdge]
  have hmin : minByKey Prod.snd
      (distances_calculated dPallriEdge 28.9709633 77.1691) =
      some ("Pallri", 1556.4) := by
    rw [hdist]
    norm_num [minByKey, minFold]
  have hfast : detect_area_from_coordinates_fast dPallriEdge 28.9709633
      77.1691 = some ("Pallri" ++ "_nearby") := by
    unfold detect_area_from_coordinates_fast
    rw [hscan, hmin]
    dsimp only
    rw [if_pos (by norm_num : (1556.4 : ℚ) ≤ 10000)]
  have hmat : matching_areas dPallriEdge 28.9709633 77.1691 =
      ["Pallri"] := by
    norm_num [matching_areas, AREA_BOUNDARIES, areaDist, dPallriEdge]
  have hmbk : minByKey
      (lookupD (distances_calculated dPallriEdge 28.9709633 77.1691))
      (matching_areas dPallriEdge 28.9709633 77.1691) = some "Pallri" := by
    rw [hmat]; rfl
  have hmem : (("Pallri", ⟨28.9709633, 77.1531023, 1700⟩) :
      String × Boundary) ∈ AREA_BOUNDARIES :=
    List.mem_cons_of_mem _ (List.mem_cons_self _ _)
  refine ⟨by norm_num [areaDist, dPallriEdge, BUFFER_ZONE_METERS],
    by norm_num [areaDist, dPallriEdge],
    by norm_num [areaDist, dPallriEdge],
    by norm_num [areaDist, dPallriEdge],
    by norm_num [areaDist, dPallriEdge], ?_, ?_, hfast, ?_⟩
  · rw [(detect_fields dPallriEdge 28.9709633 77.1691 true 10000).1,
      detectCore_some hmbk]
  · rw [(detect_fields dPallriEdge 28.9709633 77.1691 true 10000).2.2,
      detectCore_some hmbk]
    dsimp only
    rw [show radiusOf "Pallri" = 1700 from rfl,
      lookup_distances_calculated dPallriEdge 28.9709633 77.1691 hmem]
    exact decide_eq_false (by
      norm_num [areaDist, dPallriEdge, BUFFER_ZONE_METERS])
  · rw [hfast]
    decide

theorem c2_fast_full_agree_strictly_inside_witness :
    areaDist dPallriInside 28.9709633 77.1531023
        ⟨28.9709633, 77.1531023, 1700⟩ <
      1700 - BUFFER_ZONE_METERS ∧
    (detect_area_from_coordinates_fast dPallriInside 28.9709633
        77.1531023 = some "Pallri" ∧
      (detect_area_from_coordinates dPallriInside 28.9709633 77.1531023
        true 10000).primary_area = some "Pallri" ∧
      (detect_area_from_coordinates dPallriInside 28.9709633 77.1531023
        true 10000).is_on_edge = false) := by
  have hmem : (("Pallri", ⟨28.9709633, 77.1531023, 1700⟩) :
      String × Boundary) ∈ AREA_BOUNDARIES :=
    List.mem_cons_of_mem _ (List.mem_cons_self _ _)
  have hin : areaDist dPallriInside 28.9709633 77.1531023
      ⟨28.9709633, 77.1531023, 1700⟩ < 1700 - BUFFER_ZONE_METERS := by
    norm_num [areaDist, dPallriInside, BUFFER_ZONE_METERS]
  have hothers : ∀ n2 b2, (n2, b2) ∈ AREA_BOUNDARIES → n2 ≠ "Pallri" →
      b2.radius_m < areaDist dPallriInside 28.9709633 77.1531023 b2 := by
    intro n2 b2 hm hne
    simp only [AREA_BOUNDARIES, List.mem_cons, List.not_mem_nil, or_false,
      Prod.mk.injEq] at hm
    rcases hm with ⟨rfl, rfl⟩ | ⟨rfl, rfl⟩ | ⟨rfl, rfl⟩ | ⟨rfl, rfl⟩ |
      ⟨rfl, rfl⟩
    · norm_num [areaDist, dPallriInside]
    · exact absurd rfl hne
    · norm_num [areaDist, dPallriInside]
    · norm_num [areaDist, dPallriInside]
    · norm_num [areaDist, dPallriInside]
  have hq1 : |(28.9709633 : ℚ) - 28.9709633| ≤
      (1700 + BUFFER_ZONE_METERS) / 111000 := by
    norm_num [BUFFER_ZONE_METERS]
  have hq2 : |(77.1531023 : ℚ) - 77.1531023| ≤
      (1700 + BUFFER_ZONE_METERS) / 111000 := by
    norm_num [BUFFER_ZONE_METERS]
  exact ⟨hin, c2_fast_full_agree_strictly_inside dPallriInside 28.9709633
    77.1531023 true 10000 "Pallri" ⟨28.9709633, 77.1531023, 1700⟩ hmem hin
    hothers hq1 hq2⟩

/-- C4 (amended): when the strict first pass matches nothing (every area
strictly farther than its own radius) and the area with the globally
smallest center distance lies within radius_m + BUFFER_ZONE_METERS of that
distance, full-mode detection at the default 10 km cutoff admits exactly
that nearest area through the fallback branch: all_matching_areas becomes
that single area, primary_area names it, is_on_edge is true, and the
strict pass itself stays empty, so the buffer never inflates the
strict-radius containment test. -/
theorem c4_buffer_fallback (d : DistFn) (lat lon : ℚ)
    (include_nearby : Bool) (c : String × ℚ)
    (hout : ∀ n b, (n, b) ∈ AREA_BOUNDARIES →
      ¬ (areaDist d lat lon b ≤ b.radius_m))
    (hc : minByKey Prod.snd (distances_calculated d lat lon) = some c)
    (hbuf : c.2 ≤ radiusOf c.1 + BUFFER_ZONE_METERS) :
    matching_areas d lat lon = [] ∧
    (detect_area_from_coordinates d lat lon include_nearby
      10000).all_matching_areas = [c.1] ∧
    (detect_area_from_coordinates d lat lon include_nearby
      10000).primary_area = some c.1 ∧
    (detect_area_from_coordinates d lat lon include_nearby
      10000).is_on_edge = true := by
  have hmat : matching_areas d lat lon = [] := by
    simp only [matching_areas, List.map_eq_nil_iff, List.filter_eq_nil_iff,
      decide_eq_true_eq]
    exact fun p hp => hout p.1 p.2 hp
  have hle : c.2 ≤ (10000 : ℚ) := by
    obtain ⟨b, hb, _⟩ := mem_distances_calculated (minByKey_mem hc)
    have h1 : b.radius_m ≤ 3500 := radius_le_3500 (c.1, b) hb
    rw [radiusOf_eq hb] at hbuf
    have h2 : BUFFER_ZONE_METERS = 50 := rfl
    rw [h2] at hbuf
    linarith
  have hcore : detectCore (distances_calculated d lat lon)
      (matching_areas d lat lon) 10000 = (some c.1, [c.1], true) := by
    rw [hmat]
    exact detectCore_empty_buffered hc hle hbuf
  obtain ⟨hf1, hf2, hf3⟩ := detect_fields d lat lon include_nearby 10000
  exact ⟨hmat, by rw [hf2, hcore], by rw [hf1, hcore], by rw [hf3, hcore]⟩

/-- Counterexample refuting C4 as stated: at the point
(28.977481, 77.072795), with the center distances realized there by the
haversine (dBahalgarhNearest), the point is strictly outside every area
and inside the Sonepat buffer (3540.16 ≤ 3550), but the globally nearest
center is Bahalgarh at 3537.45 m, outside its own 3250 m buffer — so the
fallback labels the point "Bahalgarh_nearby" and Sonepat never enters
all_matching_areas, with is_on_edge false. -/
theorem c4_counterexample :
    (407.93 : ℚ) < areaDist dBahalgarhNearest 28.977481 77.072795
      ⟨28.9890834, 77.1506293, 407.93⟩ ∧
    (1700 : ℚ) < areaDist dBahalgarhNearest 28.977481 77.072795
      ⟨28.9709633, 77.1531023, 1700⟩ ∧
    (3200 : ℚ) < areaDist dBahalgarhNearest 28.977481 77.072795
      ⟨28.9470954, 77.0835646, 3200⟩ ∧
    (3500 : ℚ) < areaDist dBahalgarhNearest 28.977481 77.072795
      ⟨28.9845887, 77.0373188, 3500⟩ ∧
    (2300 : ℚ) < areaDist dBahalgarhNearest 28.977481 77.072795
      ⟨28.9098117, 77.1307161, 2300⟩ ∧
    areaDist dBahalgarhNearest 28.977481 77.072795
      ⟨28.9845887, 77.0373188, 3500⟩ ≤ 3500 + BUFFER_ZONE_METERS ∧
    ¬ ("Sonepat" ∈ (detect_area_from_coordinates dBahalgarhNearest
      28.977481 77.072795 true 10000).all_matching_areas) ∧
    (detect_area_from_coordinates dBahalgarhNearest 28.977481 77.072795
      true 10000).is_on_edge = false ∧
    (detect_area_from_coordinates dBahalgarhNearest 28.977481 77.072795
      true 10000).primary_area = some "Bahalgarh_nearby" := by
  have hdist : distances_calculated dBahalgarhNearest 28.977481
      77.072795 =
      [("SBIT", 7680), ("Pallri", 7845.64), ("Bahalgarh", 3537.45),
       ("Sonepat", 3540.16), ("TDI", 9401.24)] := by
    norm_num [distances_calculated, AREA_BOUNDARIES, areaDist,
      dBahalgarhNearest]
  have hmat : matching_areas dBahalgarhNearest 28.977481 77.072795 =
      [] := by
    norm_num [matching_areas, AREA_BOUNDARIES, areaDist,
      dBahalgarhNearest]
  have hmin : minByKey Prod.snd (distances_calculated dBahalgarhNearest
      28.977481 77.072795) = some ("Bahalgarh", 3537.45) := by
    rw [hdist]
    norm_num [minByKey, minFold]
  have hcore : detectCore
      (distances_calculated dBahalgarhNearest 28.977481 77.072795)
      (matching_areas dBahalgarhNearest 28.977481 77.072795) 10000 =
      (some ("Bahalgarh" ++ "_nearby"), [], false) := by
    rw [hmat]
    exact detectCore_empty_nearby hmin (by norm_num)
      (by norm_num [show radiusOf "Bahalgarh" = 3200 from rfl,
        BUFFER_ZONE_METERS])
  obtain ⟨hf1, hf2, hf3⟩ := detect_fields dBahalgarhNearest 28.977481
    77.072795 true 10000
  refine ⟨by norm_num [areaDist, dBahalgarhNearest],
    by norm_num [areaDist, dBahalgarhNearest],
    by norm_num [areaDist, dBahalgarhNearest],
    by norm_num [areaDist, dBahalgarhNearest],
    by norm_num [areaDist, dBahalgarhNearest],
    by norm_num [areaDist, dBahalgarhNearest, BUFFER_ZONE_METERS],
    ?_, ?_, ?_⟩
  · rw [hf2, hcore]
    simp
  · rw [hf3, hcore]
  · rw [hf1, hcore]
    rfl

theorem c4_buffer_fallback_witness :
    (∀ n b, (n, b) ∈ AREA_BOUNDARIES →
      ¬ (areaDist dSonepatWest 28.9845887 77.0009238 b ≤ b.radius_m)) ∧
    minByKey Prod.snd
      (distances_calculated dSonepatWest 28.9845887 77.0009238) =
      some ("Sonepat", 3540.06) ∧
    ((3540.06 : ℚ) ≤ radiusOf "Sonepat" + BUFFER_ZONE_METERS) ∧
    (matching_areas dSonepatWest 28.9845887 77.0009238 = [] ∧
      (detect_area_from_coordinates dSonepatWest 28.9845887 77.0009238
        true 10000).all_matching_areas = ["Sonepat"] ∧
      (detect_area_from_coordinates dSonepatWest 28.9845887 77.0009238
        true 10000).primary_area = some "Sonepat" ∧
      (detect_area_from_coordinates dSonepatWest 28.9845887 77.0009238
        true 10000).is_on_edge = true) := by
  have hout : ∀ n b, (n, b) ∈ AREA_BOUNDARIES →
      ¬ (areaDist dSonepatWest 28.9845887 77.0009238 b ≤ b.radius_m) := by
    intro n b hm
    simp only [AREA_BOUNDARIES, List.mem_cons, List.not_mem_nil, or_false,
      Prod.mk.injEq] at hm
    rcases hm with ⟨rfl, rfl⟩ | ⟨rfl, rfl⟩ | ⟨rfl, rfl⟩ | ⟨rfl, rfl⟩ |
      ⟨rfl, rfl⟩ <;> norm_num [areaDist, dSonepatWest]
  have hdist : distances_calculated dSonepatWest 28.9845887 77.0009238 =
      [("SBIT", 14569.78), ("Pallri", 14880.37), ("Bahalgarh", 9056.41),
       ("Sonepat", 3540.06), ("TDI", 15120.59)] := by
    norm_num [distances_calculated, AREA_BOUNDARIES, areaDist,
      dSonepatWest]
  have hc : minByKey Prod.snd
      (distances_calculated dSonepatWest 28.9845887 77.0009238) =
      some ("Sonepat", 3540.06) := by
    rw [hdist]
    norm_num [minByKey, minFold]
  have hbuf : (3540.06 : ℚ) ≤ radiusOf "Sonepat" + BUFFER_ZONE_METERS := by
    norm_num [show radiusOf "Sonepat" = 3500 from rfl, BUFFER_ZONE_METERS]
  exact ⟨hout, hc, hbuf,
    c4_buffer_fallback dSonepatWest 28.9845887 77.0009238 true
      ("Sonepat", 3540.06) hout hc hbuf⟩

/-- C3 (amended): in full mode every element of all_matching_areas is a
registered area name, never a "{name}_nearby" label; in fast mode the
update payload's all_matching_areas is either empty or exactly the
one-element list holding the fast result, which is either a registered
area name or the "{name}_nearby" fallback label of a registered name. -/
theorem c3_matching_areas_registered (d : DistFn) (lat lon : ℚ)
    (include_nearby : Bool) (maxd : ℚ) (accuracy : Option ℚ)
    (fast_mode : Bool) (p : UpdatePayload) :
    (∀ a ∈ (detect_area_from_coordinates d lat lon include_nearby
        maxd).all_matching_areas, a ∈ AREA_NAMES) ∧
    (update_user_location d lat lon accuracy fast_mode = Except.ok p →
      (fast_mode = false →
        ∀ a ∈ p.all_matching_areas, a ∈ AREA_NAMES) ∧
      (fast_mode = true →
        p.all_matching_areas = [] ∨
        ∃ s, detect_area_from_coordinates_fast d lat lon = some s ∧
          p.all_matching_areas = [s] ∧
          (s ∈ AREA_NAMES ∨ ∃ n ∈ AREA_NAMES, s = n ++ "_nearby"))) := by
  have hfull : ∀ (inc : Bool) (mx : ℚ),
      ∀ a ∈ (detect_area_from_coordinates d lat lon inc
        mx).all_matching_areas, a ∈ AREA_NAMES := by
    intro inc mx a ha
    rw [(detect_fields d lat lon inc mx).2.1] at ha
    cases hm : minByKey (lookupD (distances_calculated d lat lon))
        (matching_areas d lat lon) with
    | some m =>
      rw [detectCore_some hm] at ha
      exact matching_areas_sub_names ha
    | none =>
      obtain ⟨c, hc⟩ := minByKey_isSome (Prod.snd : String × ℚ → ℚ)
        (distances_calculated_ne_nil d lat lon)
      have hnames : c.1 ∈ AREA_NAMES := by
        obtain ⟨b, hb, _⟩ := mem_distances_calculated (minByKey_mem hc)
        exact List.mem_map.mpr ⟨(c.1, b), hb, rfl⟩
      rw [minByKey_eq_none.mp hm] at ha
      by_cases h1 : c.2 ≤ mx
      · by_cases h2 : c.2 ≤ radiusOf c.1 + BUFFER_ZONE_METERS
        · rw [detectCore_empty_buffered hc h1 h2] at ha
          have ha2 : a ∈ [c.1] := ha
          rw [List.mem_singleton.mp ha2]
          exact hnames
        · rw [detectCore_empty_nearby hc h1 h2] at ha
          exact absurd (show a ∈ ([] : List String) from ha) (by simp)
      · rw [detectCore_empty_far hc h1] at ha
        exact absurd (show a ∈ ([] : List String) from ha) (by simp)
  refine ⟨hfull include_nearby maxd, ?_⟩
  intro hupd
  by_cases h1 : -90 ≤ lat ∧ lat ≤ 90
  · by_cases h2 : -180 ≤ lon ∧ lon ≤ 180
    · rw [update_user_location, if_neg (not_not_intro h1),
        if_neg (not_not_intro h2)] at hupd
      cases fast_mode with
      | true =>
        rw [if_pos rfl] at hupd
        refine ⟨fun hff => absurd hff (by simp), fun _ => ?_⟩
        cases hf : detect_area_from_coordinates_fast d lat lon with
        | some s =>
          rw [hf] at hupd
          obtain rfl := Except.ok.inj hupd
          exact Or.inr ⟨s, rfl, rfl, fast_result_shape hf⟩
        | none =>
          rw [hf] at hupd
          obtain rfl := Except.ok.inj hupd
          exact Or.inl rfl
      | false =>
        rw [if_neg (by simp)] at hupd
        obtain rfl := Except.ok.inj hupd
        exact ⟨fun _ => hfull true 10000, fun htf => absurd htf (by simp)⟩
    · rw [update_user_location, if_neg (not_not_intro h1),
        if_pos h2] at hupd
      exact absurd hupd (by simp)
  · rw [update_user_location, if_pos h1] at hupd
    exact absurd hupd (by simp)

/-- Counterexample refuting C3 as stated: a fast-mode update at the point
(28.9709633, 77.1691), with the center distances realized there by the
haversine (dPallriEdge), stores the fallback label "Pallri_nearby" inside
all_matching_areas of the returned payload, although "Pallri_nearby" is
not a registered area name and carries the _nearby suffix. -/
theorem c3_counterexample :
    update_user_location dPallriEdge 28.9709633 77.1691 none true =
      Except.ok
        { latitude := 28.9709633, longitude := 77.1691,
          primary_area := some "Pallri_nearby",
          all_matching_areas := ["Pallri_nearby"],
          is_on_edge := false, nearby_areas := [], accuracy := none } ∧
    ¬ ("Pallri_nearby" ∈ AREA_NAMES) ∧
    endsWithNearby "Pallri_nearby" = true := by
  have hq1 : quick_distance_check 28.9709633 77.1691 28.9890834 77.1506293
      (407.93 + BUFFER_ZONE_METERS) = some false :=
    quick_check_false_of (Or.inl (by
      rw [abs_sub_comm,
        abs_of_nonneg (by norm_num : (0:ℚ) ≤ 28.9890834 - 28.9709633)]
      norm_num [BUFFER_ZONE_METERS]))
  have hq2 : quick_distance_check 28.9709633 77.1691 28.9709633 77.1531023
      (1700 + BUFFER_ZONE_METERS) = some false :=
    quick_check_false_of (Or.inr (by
      rw [abs_of_nonneg (by norm_num : (0:ℚ) ≤ 77.1691 - 77.1531023)]
      norm_num [BUFFER_ZONE_METERS]))
  have hq3 : quick_distance_check 28.9709633 77.1691 28.9470954 77.0835646
      (3200 + BUFFER_ZONE_METERS) = some false :=
    quick_check_false_of (Or.inr (by
      rw [abs_of_nonneg (by norm_num : (0:ℚ) ≤ 77.1691 - 77.0835646)]
      norm_num [BUFFER_ZONE_METERS]))
  have hq4 : quick_distance_check 28.9709633 77.1691 28.9845887 77.0373188
      (3500 + BUFFER_ZONE_METERS) = some false :=
    quick_check_false_of (Or.inr (by
      rw [abs_of_nonneg (by norm_num : (0:ℚ) ≤ 77.1691 - 77.0373188)]
      norm_num [BUFFER_ZONE_METERS]))
  have hq5 : quick_distance_check 28.9709633 77.1691 28.9098117 77.1307161
      (2300 + BUFFER_ZONE_METERS) = some false :=
    quick_check_false_of (Or.inl (by
      rw [abs_of_nonneg (by norm_num : (0:ℚ) ≤ 28.9709633 - 28.9098117)]
      norm_num [BUFFER_ZONE_METERS]))
  have hscan : fastScan dPallriEdge 28.9709633 77.1691 AREA_BOUNDARIES =
      none := by
    simp only [AREA_BOUNDARIES, fastScan, hq1, hq2, hq3, hq4, hq5]
  have hdist : distances_calculated dPallriEdge 28.9709633 77.1691 =
      [("SBIT", 2702), ("Pallri", 1556.4), ("Bahalgarh", 8731),
       ("Sonepat", 12911), ("TDI", 7758)] := by
    norm_num [distances_calculated, AREA_BOUNDARIES, areaDist, dPallriEdge]
  have hmin : minByKey Prod.snd
      (distances_calculated dPallriEdge 28.9709633 77.1691) =
      some ("Pallri", 1556.4) := by
    rw [hdist]
    norm_num [minByKey, minFold]
  have hfast : detect_area_from_coordinates_fast dPallriEdge 28.9709633
      77.1691 = some ("Pallri" ++ "_nearby") := by
    unfold detect_area_from_coordinates_fast
    rw [hscan, hmin]
    dsimp only
    rw [if_pos (by norm_num : (1556.4 : ℚ) ≤ 10000)]
  refine ⟨?_, by decide, by decide⟩
  rw [update_user_location,
    if_neg (not_not_intro ⟨by norm_num, by norm_num⟩),
    if_neg (not_not_intro ⟨by norm_num, by norm_num⟩), if_pos rfl, hfast]
  rfl

theorem c3_matching_areas_registered_witness :
    update_user_location dSbitCenter 28.9890834 77.1506293 none true =
      Except.ok
        { latitude := 28.9890834, longitude := 77.1506293,
          primary_area := some "SBIT", all_matching_areas := ["SBIT"],
          is_on_edge := false, nearby_areas := [], accuracy := none } ∧
    ((["SBIT"] : List String) = [] ∨
      ∃ s, detect_area_from_coordinates_fast dSbitCenter 28.9890834
          77.1506293 = some s ∧
        (["SBIT"] : List String) = [s] ∧
        (s ∈ AREA_NAMES ∨ ∃ n ∈ AREA_NAMES, s = n ++ "_nearby")) := by
  have hq : quick_distance_check 28.9890834 77.1506293 28.9890834
      77.1506293 (407.93 + BUFFER_ZONE_METERS) = some true := by
    simp only [quick_distance_check, sub_self, abs_zero]
    rw [if_neg (by norm_num [BUFFER_ZONE_METERS]), if_pos (by norm_num)]
  have hfast : detect_area_from_coordinates_fast dSbitCenter 28.9890834
      77.1506293 = some "SBIT" := by
    unfold detect_area_from_coordinates_fast
    rw [show fastScan dSbitCenter 28.9890834 77.1506293 AREA_BOUNDARIES =
        some "SBIT" from by
      simp only [AREA_BOUNDARIES, fastScan, hq]
      rw [if_pos (by norm_num [dSbitCenter])]]
  have hupd : update_user_location dSbitCenter 28.9890834 77.1506293 none
      true = Except.ok
        { latitude := 28.9890834, longitude := 77.1506293,
          primary_area := some "SBIT", all_matching_areas := ["SBIT"],
          is_on_edge := false, nearby_areas := [], accuracy := none } := by
    rw [update_user_location,
      if_neg (not_not_intro ⟨by norm_num, by norm_num⟩),
      if_neg (not_not_intro ⟨by norm_num, by norm_num⟩), if_pos rfl, hfast]
  exact ⟨hupd, ((c3_matching_areas_registered dSbitCenter 28.9890834
    77.1506293 true 10000 none true _).2 hupd).2 rfl⟩
